import Mathlib

set_option autoImplicit false

namespace Jobly

/-!
Shallow embedding of the partial-update SQL builder and the company/job
model operations of the repository.  JavaScript scalar values are modelled
by `JSValue`; JavaScript objects used as ordered field→value maps are
modelled by association lists (`List (String × JSValue)`), whose order is
the object's key insertion order.
-/

/-- A JavaScript scalar value as it occurs in payloads and query syntax:
`null`, `undefined`, a number, a string, or a boolean. -/
inductive JSValue where
  | vNull
  | vUndefined
  | vNum (n : Int)
  | vStr (s : String)
  | vBool (b : Bool)
deriving DecidableEq, Repr

/-- JavaScript truthiness of a scalar: `null`, `undefined`, `0`, the empty
string and `false` are falsy; everything else is truthy. -/
def truthy : JSValue → Bool
  | .vNull => false
  | .vUndefined => false
  | .vNum n => n != 0
  | .vStr s => s != ""
  | .vBool b => b

/-- JavaScript string interpolation of a scalar (as in template literals). -/
def jsToString : JSValue → String
  | .vNull => "null"
  | .vUndefined => "undefined"
  | .vNum n => toString n
  | .vStr s => s
  | .vBool b => if b then "true" else "false"

/-- Errors raised by the model layer.  `invalidArgument` models the
`BadRequestError` thrown by the builder (the spec's `InvalidArgument`);
`notFound` models `NotFoundError` (and the ad-hoc 404 error in
`Company.get`). -/
inductive ModelError where
  | invalidArgument (msg : String)
  | notFound (msg : String)
deriving DecidableEq, Repr

/-- The builder's successful result: the SQL `SET` fragment string and the
ordered bind values.  The callers in `src/models/company.js` destructure it
as `{ setCols, values }`. -/
structure ClauseResult where
  setCols : String
  values : List JSValue
deriving DecidableEq, Repr

/-- Column-name resolution through the field-name map: `M[k]` if `k` is a
key of `M`, else `k` itself. -/
def lookupField (jsToSql : List (String × String)) (k : String) : String :=
  match jsToSql.find? (fun p => p.1 == k) with
  | some p => p.2
  | none => k

/-- The `"<resolved>"=$<i+1>` fragments for the keys `ks`, with `i` the
0-based running position (starting at the accumulator argument). -/
def setFragments (jsToSql : List (String × String)) : Nat → List String → List String
  | _, [] => []
  | i, k :: ks =>
      ("\"" ++ lookupField jsToSql k ++ "\"=$" ++ toString (i + 1))
        :: setFragments jsToSql (i + 1) ks

/-- Modelled from the spec: the partial-update clause builder
`sqlForPartialUpdate` of `helpers/sql.js` is not among the provided source
files (only its test `src/helpers/sql.test.js` and its callers in
`src/models/company.js` are), so its body follows spec §4.1
(`buildSetClause`): fail with "No data" on an empty payload, otherwise
produce one `"<resolved>"=$<i+1>` fragment per key in insertion order,
joined by `", "`, with the payload's values in the same order.  The result
field names `setCols`/`values` match the callers' destructuring. -/
def sqlForPartialUpdate (dataToUpdate : List (String × JSValue))
    (jsToSql : List (String × String)) : Except ModelError ClauseResult :=
  if dataToUpdate.isEmpty then
    .error (.invalidArgument "No data")
  else
    .ok { setCols :=
            String.intercalate ", " (setFragments jsToSql 0 (dataToUpdate.map Prod.fst)),
          values := dataToUpdate.map Prod.snd }

/-- A parameterized UPDATE statement as assembled by `Company.update` /
`Job.update`: the SQL text, the `WHERE`-clause placeholder (the local
`handleVarIdx` / `idVarIdx` of the source), and the parameter list passed
to `db.query`.  The subsequent execution and its not-found check do not
affect the statement and are not modelled here. -/
structure UpdateQuery where
  querySql : String
  whereIdx : String
  params : List JSValue
deriving DecidableEq, Repr

/-- The field-name map `Company.update` passes to the builder. -/
def companyFieldMap : List (String × String) :=
  [("numEmployees", "num_employees"), ("logoUrl", "logo_url")]

/-- `Company.update` (src/models/company.js lines 194-217), up to the
`db.query` call: build the SET clause, compute `handleVarIdx`, assemble the
template-literal SQL text and the `[...values, handle]` parameter list. -/
def companyUpdateQuery (handle : JSValue) (data : List (String × JSValue)) :
    Except ModelError UpdateQuery :=
  match sqlForPartialUpdate data companyFieldMap with
  | .error e => .error e
  | .ok r =>
      let handleVarIdx := "$" ++ toString (r.values.length + 1)
      .ok { querySql :=
              "UPDATE companies \n                      SET " ++ r.setCols ++
              " \n                      WHERE handle = " ++ handleVarIdx ++
              " \n                      RETURNING handle, \n                                name, \n                                description, \n                                num_employees AS \"numEmployees\", \n                                logo_url AS \"logoUrl\"",
            whereIdx := handleVarIdx,
            params := r.values ++ [handle] }

/-- `Job.update` (second file of src/models/company.js, lines 372-392), up
to the `db.query` call: the builder is called with an empty map, then the
`[...values, id]` parameter list is assembled. -/
def jobUpdateQuery (id : JSValue) (data : List (String × JSValue)) :
    Except ModelError UpdateQuery :=
  match sqlForPartialUpdate data [] with
  | .error e => .error e
  | .ok r =>
      let idVarIdx := "$" ++ toString (r.values.length + 1)
      .ok { querySql :=
              "UPDATE jobs \n                      SET " ++ r.setCols ++
              " \n                      WHERE id = " ++ idVarIdx ++
              " \n                      RETURNING id, \n                                title, \n                                salary, \n                                equity, \n                                company_handle",
            whereIdx := idVarIdx,
            params := r.values ++ [id] }

/-- The INSERT statement text of `Company.create`
(src/models/company.js lines 29-33). -/
def companyCreateQuerySql : String :=
  "INSERT INTO companies\n           (handle, name, description, num_employees, logo_url)\n           VALUES ($1, $2, $3, $4, $5)\n           RETURNING handle, name, description, num_employees AS \"numEmployees\", logo_url AS \"logoUrl\""

/-- The `searchParams` object destructured by `Company.findAll`; an absent
property reads as `undefined`. -/
structure CompanySearchParams where
  name : JSValue
  minEmployees : JSValue
  maxEmployees : JSValue
  handle : JSValue
deriving DecidableEq, Repr

/-- A row of the `Company.findAll` SELECT (columns as named in the query). -/
structure CompanyRow where
  handle : JSValue
  name : JSValue
  num_employees : JSValue
  description : JSValue
  logo_url : JSValue
deriving DecidableEq, Repr

/-- The `whereClause` / `queryValues` arrays built by `Company.findAll`
(src/models/company.js lines 100-121): for each of `name`, `minEmployees`,
`maxEmployees`, `handle` in that order, a truthy value pushes a bind value
and a condition numbered by the array length after the push. -/
def companyWhereParts (searchParams : CompanySearchParams) :
    List String × List JSValue :=
  let whereClause : List String := []
  let queryValues : List JSValue := []
  let (whereClause, queryValues) :=
    if truthy searchParams.name then
      (whereClause ++ ["name ILIKE $" ++ toString (queryValues.length + 1)],
       queryValues ++ [JSValue.vStr ("%" ++ jsToString searchParams.name ++ "%")])
    else (whereClause, queryValues)
  let (whereClause, queryValues) :=
    if truthy searchParams.minEmployees then
      (whereClause ++ ["num_employees >= $" ++ toString (queryValues.length + 1)],
       queryValues ++ [searchParams.minEmployees])
    else (whereClause, queryValues)
  let (whereClause, queryValues) :=
    if truthy searchParams.maxEmployees then
      (whereClause ++ ["num_employees <= $" ++ toString (queryValues.length + 1)],
       queryValues ++ [searchParams.maxEmployees])
    else (whereClause, queryValues)
  let (whereClause, queryValues) :=
    if truthy searchParams.handle then
      (whereClause ++ ["handle = $" ++ toString (queryValues.length + 1)],
       queryValues ++ [searchParams.handle])
    else (whereClause, queryValues)
  (whereClause, queryValues)

/-- The SELECT statement text and bind values of `Company.findAll`
(src/models/company.js lines 123-128). -/
def companyFindAllQuery (searchParams : CompanySearchParams) :
    String × List JSValue :=
  let (whereClause, queryValues) := companyWhereParts searchParams
  let whereClauseStr :=
    if whereClause.length > 0 then "WHERE " ++ String.intercalate " AND " whereClause else ""
  ("\n    SELECT handle, name, num_employees, description, logo_url \n    FROM companies \n    "
     ++ whereClauseStr ++ "\n  ", queryValues)

/-- `Company.findAll` (src/models/company.js lines 97-136): run the
assembled query against the store (modelled by the function `dbQuery`) and
throw `NotFoundError` when it yields zero rows. -/
def companyFindAll (searchParams : CompanySearchParams)
    (dbQuery : String → List JSValue → List CompanyRow) :
    Except ModelError (List CompanyRow) :=
  let (query, queryValues) := companyFindAllQuery searchParams
  let rows := dbQuery query queryValues
  if rows.length = 0 then
    .error (.notFound "No company found with the given parameters")
  else
    .ok rows

/-- The `searchParams` object destructured by `Job.findAll`. -/
structure JobSearchParams where
  title : JSValue
  minSalary : JSValue
  hasEquity : JSValue
deriving DecidableEq, Repr

/-- A row of the `Job.findAll` SELECT (columns as named in the query). -/
structure JobRow where
  id : JSValue
  title : JSValue
  salary : JSValue
  equity : JSValue
  companyHandle : JSValue
deriving DecidableEq, Repr

/-- The `whereClause` / `queryValues` arrays built by `Job.findAll`
(lines 291-306 of the second file): truthy `title` and `minSalary` push a
bind value and a numbered condition; truthy `hasEquity` pushes the
condition `equity > 0` with no bind value. -/
def jobWhereParts (searchParams : JobSearchParams) :
    List String × List JSValue :=
  let whereClause : List String := []
  let queryValues : List JSValue := []
  let (whereClause, queryValues) :=
    if truthy searchParams.title then
      (whereClause ++ ["title ILIKE $" ++ toString (queryValues.length + 1)],
       queryValues ++ [JSValue.vStr ("%" ++ jsToString searchParams.title ++ "%")])
    else (whereClause, queryValues)
  let (whereClause, queryValues) :=
    if truthy searchParams.minSalary then
      (whereClause ++ ["salary >= $" ++ toString (queryValues.length + 1)],
       queryValues ++ [searchParams.minSalary])
    else (whereClause, queryValues)
  let whereClause :=
    if truthy searchParams.hasEquity then whereClause ++ ["equity > 0"] else whereClause
  (whereClause, queryValues)

/-- The SELECT statement text and bind values of `Job.findAll`
(lines 308-313 of the second file). -/
def jobFindAllQuery (searchParams : JobSearchParams) : String × List JSValue :=
  let (whereClause, queryValues) := jobWhereParts searchParams
  let whereClauseStr :=
    if whereClause.length > 0 then "WHERE " ++ String.intercalate " AND " whereClause else ""
  ("\n      SELECT id, title, salary, equity, company_handle AS \"companyHandle\"\n      FROM jobs\n      "
     ++ whereClauseStr ++ "\n    ", queryValues)

/-- `Job.findAll` (lines 288-323 of the second file): run the assembled
query and throw `NotFoundError` when it yields zero rows. -/
def jobFindAll (searchParams : JobSearchParams)
    (dbQuery : String → List JSValue → List JobRow) :
    Except ModelError (List JobRow) :=
  let (query, queryValues) := jobFindAllQuery searchParams
  let rows := dbQuery query queryValues
  if rows.length = 0 then
    .error (.notFound "No job found with the given parameters")
  else
    .ok rows

/-- A row of the `Company.get` LEFT JOIN query: company columns plus the
(possibly NULL) job columns. -/
structure CompanyJoinRow where
  handle : JSValue
  name : JSValue
  description : JSValue
  num_employees : JSValue
  logo_url : JSValue
  id : JSValue
  title : JSValue
  salary : JSValue
  equity : JSValue
deriving DecidableEq, Repr

/-- An element of the `jobs` array assembled by `Company.get`. -/
structure JobEntry where
  id : JSValue
  title : JSValue
  salary : JSValue
  equity : JSValue
deriving DecidableEq, Repr

/-- A property value of the object returned by `Company.get`: either a
scalar or the `jobs` array. -/
inductive ResValue where
  | scalar (v : JSValue)
  | jobs (l : List JobEntry)
deriving DecidableEq, Repr

/-- `Company.get` (src/models/company.js lines 146-178), given the rows the
LEFT JOIN query returned: a missing company is a 404 error, otherwise the
returned object literal is modelled as the ordered list of its
key/value properties, with `jobs` the join rows whose `id` is not null. -/
def companyGet (handle : JSValue) (rows : List CompanyJoinRow) :
    Except ModelError (List (String × ResValue)) :=
  match rows with
  | [] => .error (.notFound ("No company: " ++ jsToString handle))
  | company :: _ =>
      .ok [("handle", .scalar company.handle),
           ("name", .scalar company.name),
           ("description", .scalar company.description),
           ("num_employees", .scalar company.num_employees),
           ("logo_url", .scalar company.logo_url),
           ("jobs", .jobs ((rows.filter (fun r => r.id != JSValue.vNull)).map
              (fun r => { id := r.id, title := r.title, salary := r.salary,
                          equity := r.equity })))]

theorem setFragments_length (jsToSql : List (String × String)) :
    ∀ (i : Nat) (ks : List String), (setFragments jsToSql i ks).length = ks.length := by
  intro i ks
  induction ks generalizing i with
  | nil => rfl
  | cons k ks ih => simpa [setFragments] using ih (i + 1)

theorem setFragments_getElem? (jsToSql : List (String × String)) :
    ∀ (i j : Nat) (ks : List String) (k : String), ks[j]? = some k →
      (setFragments jsToSql i ks)[j]? =
        some ("\"" ++ lookupField jsToSql k ++ "\"=$" ++ toString (i + j + 1)) := by
  intro i j ks
  induction ks generalizing i j with
  | nil => intro k h; simp at h
  | cons a ks ih =>
      intro k h
      cases j with
      | zero => simp_all [setFragments]
      | succ j =>
          simp only [List.getElem?_cons_succ] at h
          have := ih (i + 1) j k h
          simp only [setFragments, List.getElem?_cons_succ, this]
          congr 3
          omega

/-- Claim C1: on any non-empty payload the builder succeeds, its
`setCols` is the `", "`-join of one fragment per payload key in insertion
order, the `i`-th (0-based) fragment is `"<resolved>"=$<i+1>` with the
name resolved through the field-name map, `values` lists the payload
values in the same order, and `values.length` equals the number of keys. -/
theorem sqlForPartialUpdate_spec (dataToUpdate : List (String × JSValue))
    (jsToSql : List (String × String)) (hne : dataToUpdate ≠ []) :
    ∃ (r : ClauseResult) (frags : List String),
      sqlForPartialUpdate dataToUpdate jsToSql = .ok r ∧
      r.setCols = String.intercalate ", " frags ∧
      frags.length = dataToUpdate.length ∧
      r.values = dataToUpdate.map Prod.snd ∧
      r.values.length = dataToUpdate.length ∧
      ∀ (i : Nat) (k : String) (v : JSValue), dataToUpdate[i]? = some (k, v) →
        frags[i]? = some ("\"" ++ lookupField jsToSql k ++ "\"=$" ++ toString (i + 1)) ∧
        r.values[i]? = some v := by
  cases dataToUpdate with
  | nil => exact absurd rfl hne
  | cons p ps =>
      refine ⟨_, setFragments jsToSql 0 ((p :: ps).map Prod.fst), rfl, rfl, ?_, rfl, ?_, ?_⟩
      · rw [setFragments_length, List.length_map]
      · exact List.length_map _ _
      · intro i k v h
        have hk : ((p :: ps).map Prod.fst)[i]? = some k := by
          rw [List.getElem?_map, h]; rfl
        have hv : ((p :: ps).map Prod.snd)[i]? = some v := by
          rw [List.getElem?_map, h]; rfl
        have hf := setFragments_getElem? jsToSql 0 i ((p :: ps).map Prod.fst) k hk
        rw [Nat.zero_add] at hf
        exact ⟨hf, hv⟩

theorem sqlForPartialUpdate_spec_witness :
    ∃ (r : ClauseResult) (frags : List String),
      sqlForPartialUpdate [("firstName", JSValue.vStr "Douglas"), ("age", JSValue.vNum 42)]
        [("firstName", "first_name")] = .ok r ∧
      r.setCols = String.intercalate ", " frags ∧
      frags.length = ([("firstName", JSValue.vStr "Douglas"),
        ("age", JSValue.vNum 42)] : List (String × JSValue)).length ∧
      r.values = ([("firstName", JSValue.vStr "Douglas"),
        ("age", JSValue.vNum 42)] : List (String × JSValue)).map Prod.snd ∧
      r.values.length = ([("firstName", JSValue.vStr "Douglas"),
        ("age", JSValue.vNum 42)] : List (String × JSValue)).length ∧
      ∀ (i : Nat) (k : String) (v : JSValue),
        ([("firstName", JSValue.vStr "Douglas"),
          ("age", JSValue.vNum 42)] : List (String × JSValue))[i]? = some (k, v) →
        frags[i]? = some ("\"" ++ lookupField [("firstName", "first_name")] k ++ "\"=$"
          ++ toString (i + 1)) ∧
        r.values[i]? = some v :=
  sqlForPartialUpdate_spec
    [("firstName", JSValue.vStr "Douglas"), ("age", JSValue.vNum 42)]
    [("firstName", "first_name")] (by decide)

/-- Claim C2: the builder fails, with the `InvalidArgument` error carrying
exactly the message "No data", if and only if the payload has zero keys —
for every field-name map — and no other error can be produced. -/
theorem sqlForPartialUpdate_noData (dataToUpdate : List (String × JSValue))
    (jsToSql : List (String × String)) :
    (sqlForPartialUpdate dataToUpdate jsToSql
        = .error (.invalidArgument "No data") ↔ dataToUpdate = []) ∧
    ∀ e : ModelError, sqlForPartialUpdate dataToUpdate jsToSql = .error e →
      e = .invalidArgument "No data" := by
  cases dataToUpdate with
  | nil =>
      refine ⟨⟨fun _ => rfl, fun _ => rfl⟩, ?_⟩
      intro e h
      simp [sqlForPartialUpdate] at h
      exact h.symm
  | cons p ps =>
      constructor
      · simp [sqlForPartialUpdate]
      · intro e h
        simp [sqlForPartialUpdate] at h

theorem sqlForPartialUpdate_noData_witness :
    sqlForPartialUpdate [] [("firstName", "first_name")]
      = .error (.invalidArgument "No data") :=
  (sqlForPartialUpdate_noData [] [("firstName", "first_name")]).1.mpr rfl

/-- Claim C3: on the payload `{ firstName: "Douglas", age: 42 }` with map
`{ firstName: "first_name" }` the builder returns the clause
`"first_name"=$1, "age"=$2` and the values `["Douglas", 42]`. -/
theorem sqlForPartialUpdate_example_rename :
    sqlForPartialUpdate [("firstName", JSValue.vStr "Douglas"), ("age", JSValue.vNum 42)]
      [("firstName", "first_name")]
      = .ok { setCols := "\"first_name\"=$1, \"age\"=$2",
              values := [JSValue.vStr "Douglas", JSValue.vNum 42] } := rfl

/-- Claim C4: explicit nulls are normal update values: on the payload
`{ salary: null, equity: null }` with the empty map the builder returns
the clause `"salary"=$1, "equity"=$2` and the values `[null, null]`. -/
theorem sqlForPartialUpdate_example_nulls :
    sqlForPartialUpdate [("salary", JSValue.vNull), ("equity", JSValue.vNull)] []
      = .ok { setCols := "\"salary\"=$1, \"equity\"=$2",
              values := [JSValue.vNull, JSValue.vNull] } := rfl

/-- Claim C5: map entries whose keys do not occur in the payload are
ignored: on the payload `{ a: 1 }` with map `{ b: "bb" }` the builder
returns the clause `"a"=$1` and the values `[1]`. -/
theorem sqlForPartialUpdate_example_unusedMap :
    sqlForPartialUpdate [("a", JSValue.vNum 1)] [("b", "bb")]
      = .ok { setCols := "\"a\"=$1", values := [JSValue.vNum 1] } := rfl

/-- Claim C7: the builder is deterministic: two invocations with equal
payloads and equal field-name maps produce equal results (equal
`ClauseResult`s on success, the identical "No data" failure on an empty
payload).  Side-effect freedom holds by construction: the embedding is a
pure function of its arguments. -/
theorem sqlForPartialUpdate_deterministic (d₁ d₂ : List (String × JSValue))
    (m₁ m₂ : List (String × String)) (hd : d₁ = d₂) (hm : m₁ = m₂) :
    sqlForPartialUpdate d₁ m₁ = sqlForPartialUpdate d₂ m₂ := by
  rw [hd, hm]

theorem sqlForPartialUpdate_deterministic_witness :
    sqlForPartialUpdate [("a", JSValue.vNum 1)] [("b", "bb")]
      = sqlForPartialUpdate [("a", JSValue.vNum 1)] [("b", "bb")] :=
  sqlForPartialUpdate_deterministic [("a", JSValue.vNum 1)] [("a", JSValue.vNum 1)]
    [("b", "bb")] [("b", "bb")] rfl rfl

theorem truthy_vUndefined : truthy JSValue.vUndefined = false := rfl

theorem truthy_vNum_zero : truthy (JSValue.vNum 0) = false := rfl

theorem truthy_vStr_empty : truthy (JSValue.vStr "") = false := rfl

/-- Claim C6: `Company.update` and `Job.update` append exactly one
placeholder/value pair after the builder's output: whenever the builder
succeeds with result `r`, the `WHERE`-clause placeholder is
`$ (r.values.length + 1)` and the executed parameter list is `r.values`
followed by the identifying key. -/
theorem updateQuery_appends_key (key : JSValue) (dataC dataJ : List (String × JSValue))
    (rc rj : ClauseResult)
    (hc : sqlForPartialUpdate dataC companyFieldMap = .ok rc)
    (hj : sqlForPartialUpdate dataJ [] = .ok rj) :
    (∃ q : UpdateQuery, companyUpdateQuery key dataC = .ok q ∧
      q.whereIdx = "$" ++ toString (rc.values.length + 1) ∧
      q.params = rc.values ++ [key]) ∧
    (∃ q : UpdateQuery, jobUpdateQuery key dataJ = .ok q ∧
      q.whereIdx = "$" ++ toString (rj.values.length + 1) ∧
      q.params = rj.values ++ [key]) := by
  constructor
  · unfold companyUpdateQuery
    rw [hc]
    exact ⟨_, rfl, rfl, rfl⟩
  · unfold jobUpdateQuery
    rw [hj]
    exact ⟨_, rfl, rfl, rfl⟩

theorem updateQuery_appends_key_witness :
    (∃ q : UpdateQuery,
      companyUpdateQuery (JSValue.vStr "c1") [("numEmployees", JSValue.vNum 10)] = .ok q ∧
      q.whereIdx = "$" ++ toString (([JSValue.vNum 10] : List JSValue).length + 1) ∧
      q.params = [JSValue.vNum 10] ++ [JSValue.vStr "c1"]) ∧
    (∃ q : UpdateQuery,
      jobUpdateQuery (JSValue.vStr "c1") [("title", JSValue.vStr "New")] = .ok q ∧
      q.whereIdx = "$" ++ toString (([JSValue.vStr "New"] : List JSValue).length + 1) ∧
      q.params = [JSValue.vStr "New"] ++ [JSValue.vStr "c1"]) :=
  updateQuery_appends_key (JSValue.vStr "c1") [("numEmployees", JSValue.vNum 10)]
    [("title", JSValue.vStr "New")]
    { setCols := "\"num_employees\"=$1", values := [JSValue.vNum 10] }
    { setCols := "\"title\"=$1", values := [JSValue.vStr "New"] } rfl rfl

/-- Claim C8: `Company.findAll` and `Job.findAll` throw `NotFoundError`
exactly when the filtered query yields zero rows, and never return an
empty result list. -/
theorem findAll_no_empty_result (p : CompanySearchParams) (jp : JobSearchParams)
    (dbc : String → List JSValue → List CompanyRow)
    (dbj : String → List JSValue → List JobRow) :
    (companyFindAll p dbc = .error (.notFound "No company found with the given parameters")
      ↔ dbc (companyFindAllQuery p).1 (companyFindAllQuery p).2 = []) ∧
    companyFindAll p dbc ≠ .ok [] ∧
    (jobFindAll jp dbj = .error (.notFound "No job found with the given parameters")
      ↔ dbj (jobFindAllQuery jp).1 (jobFindAllQuery jp).2 = []) ∧
    jobFindAll jp dbj ≠ .ok [] := by
  rcases hcq : companyFindAllQuery p with ⟨q1, v1⟩
  rcases hjq : jobFindAllQuery jp with ⟨q2, v2⟩
  simp only [companyFindAll, jobFindAll, hcq, hjq]
  rcases hr1 : dbc q1 v1 with _ | ⟨r1, rs1⟩ <;>
    rcases hr2 : dbj q2 v2 with _ | ⟨r2, rs2⟩ <;>
      simp_all

theorem findAll_no_empty_result_witness :
    (companyFindAll ⟨JSValue.vStr "nope", JSValue.vUndefined, JSValue.vUndefined,
        JSValue.vUndefined⟩ (fun _ _ => [])
      = .error (.notFound "No company found with the given parameters")
      ↔ (fun (_ : String) (_ : List JSValue) => ([] : List CompanyRow))
          (companyFindAllQuery ⟨JSValue.vStr "nope", JSValue.vUndefined,
            JSValue.vUndefined, JSValue.vUndefined⟩).1
          (companyFindAllQuery ⟨JSValue.vStr "nope", JSValue.vUndefined,
            JSValue.vUndefined, JSValue.vUndefined⟩).2 = []) ∧
    companyFindAll ⟨JSValue.vStr "nope", JSValue.vUndefined, JSValue.vUndefined,
        JSValue.vUndefined⟩ (fun _ _ => []) ≠ .ok [] ∧
    (jobFindAll ⟨JSValue.vUndefined, JSValue.vUndefined, JSValue.vBool true⟩
        (fun _ _ => [])
      = .error (.notFound "No job found with the given parameters")
      ↔ (fun (_ : String) (_ : List JSValue) => ([] : List JobRow))
          (jobFindAllQuery ⟨JSValue.vUndefined, JSValue.vUndefined,
            JSValue.vBool true⟩).1
          (jobFindAllQuery ⟨JSValue.vUndefined, JSValue.vUndefined,
            JSValue.vBool true⟩).2 = []) ∧
    jobFindAll ⟨JSValue.vUndefined, JSValue.vUndefined, JSValue.vBool true⟩
        (fun _ _ => []) ≠ .ok [] :=
  findAll_no_empty_result
    ⟨JSValue.vStr "nope", JSValue.vUndefined, JSValue.vUndefined, JSValue.vUndefined⟩
    ⟨JSValue.vUndefined, JSValue.vUndefined, JSValue.vBool true⟩
    (fun _ _ => []) (fun _ _ => [])

/-- Claim C9: the `findAll` filters are gated by JavaScript truthiness.
Each filter on its own contributes exactly its WHERE condition when
truthy and nothing otherwise; a falsy filter value (in particular `0` for
`minEmployees`, `maxEmployees` or `minSalary`, and the empty string for
`name`) leaves the clause/value arrays exactly as if the filter were
absent; a truthy `hasEquity` appends the condition `equity > 0` without
adding a bind value. -/
theorem findAll_truthy_filters
    (n mn mx hd t ms e : JSValue)
    (fn fmn fmx fhd ft fms fe te : JSValue)
    (hfn : truthy fn = false) (hfmn : truthy fmn = false) (hfmx : truthy fmx = false)
    (hfhd : truthy fhd = false) (hft : truthy ft = false) (hfms : truthy fms = false)
    (hfe : truthy fe = false) (hte : truthy te = true) :
    companyWhereParts ⟨n, .vUndefined, .vUndefined, .vUndefined⟩
      = (if truthy n then (["name ILIKE $1"], [JSValue.vStr ("%" ++ jsToString n ++ "%")])
         else ([], [])) ∧
    companyWhereParts ⟨.vUndefined, mn, .vUndefined, .vUndefined⟩
      = (if truthy mn then (["num_employees >= $1"], [mn]) else ([], [])) ∧
    companyWhereParts ⟨.vUndefined, .vUndefined, mx, .vUndefined⟩
      = (if truthy mx then (["num_employees <= $1"], [mx]) else ([], [])) ∧
    companyWhereParts ⟨.vUndefined, .vUndefined, .vUndefined, hd⟩
      = (if truthy hd then (["handle = $1"], [hd]) else ([], [])) ∧
    companyWhereParts ⟨fn, mn, mx, hd⟩ = companyWhereParts ⟨.vUndefined, mn, mx, hd⟩ ∧
    companyWhereParts ⟨n, fmn, mx, hd⟩ = companyWhereParts ⟨n, .vUndefined, mx, hd⟩ ∧
    companyWhereParts ⟨n, mn, fmx, hd⟩ = companyWhereParts ⟨n, mn, .vUndefined, hd⟩ ∧
    companyWhereParts ⟨n, mn, mx, fhd⟩ = companyWhereParts ⟨n, mn, mx, .vUndefined⟩ ∧
    companyWhereParts ⟨n, .vNum 0, mx, hd⟩ = companyWhereParts ⟨n, .vUndefined, mx, hd⟩ ∧
    companyWhereParts ⟨n, mn, .vNum 0, hd⟩ = companyWhereParts ⟨n, mn, .vUndefined, hd⟩ ∧
    companyWhereParts ⟨.vStr "", mn, mx, hd⟩ = companyWhereParts ⟨.vUndefined, mn, mx, hd⟩ ∧
    jobWhereParts ⟨t, .vUndefined, .vUndefined⟩
      = (if truthy t then (["title ILIKE $1"], [JSValue.vStr ("%" ++ jsToString t ++ "%")])
         else ([], [])) ∧
    jobWhereParts ⟨.vUndefined, ms, .vUndefined⟩
      = (if truthy ms then (["salary >= $1"], [ms]) else ([], [])) ∧
    jobWhereParts ⟨ft, ms, e⟩ = jobWhereParts ⟨.vUndefined, ms, e⟩ ∧
    jobWhereParts ⟨t, fms, e⟩ = jobWhereParts ⟨t, .vUndefined, e⟩ ∧
    jobWhereParts ⟨t, .vNum 0, e⟩ = jobWhereParts ⟨t, .vUndefined, e⟩ ∧
    jobWhereParts ⟨t, ms, fe⟩ = jobWhereParts ⟨t, ms, .vUndefined⟩ ∧
    (jobWhereParts ⟨t, ms, te⟩).1 = (jobWhereParts ⟨t, ms, .vUndefined⟩).1 ++ ["equity > 0"] ∧
    (jobWhereParts ⟨t, ms, te⟩).2 = (jobWhereParts ⟨t, ms, .vUndefined⟩).2 := by
  refine ⟨?_, ?_, ?_, ?_, ?_, ?_, ?_, ?_, ?_, ?_, ?_, ?_, ?_, ?_, ?_, ?_, ?_, ?_, ?_⟩
  · cases h : truthy n <;>
      simp [companyWhereParts, h, truthy_vUndefined, show toString (1 : Nat) = "1" from rfl]
  · cases h : truthy mn <;>
      simp [companyWhereParts, h, truthy_vUndefined, show toString (1 : Nat) = "1" from rfl]
  · cases h : truthy mx <;>
      simp [companyWhereParts, h, truthy_vUndefined, show toString (1 : Nat) = "1" from rfl]
  · cases h : truthy hd <;>
      simp [companyWhereParts, h, truthy_vUndefined, show toString (1 : Nat) = "1" from rfl]
  · simp [companyWhereParts, hfn, truthy_vUndefined]
  · simp [companyWhereParts, hfmn, truthy_vUndefined]
  · simp [companyWhereParts, hfmx, truthy_vUndefined]
  · simp [companyWhereParts, hfhd, truthy_vUndefined]
  · simp [companyWhereParts, truthy_vNum_zero, truthy_vUndefined]
  · simp [companyWhereParts, truthy_vNum_zero, truthy_vUndefined]
  · simp [companyWhereParts, truthy_vStr_empty, truthy_vUndefined]
  · cases h : truthy t <;>
      simp [jobWhereParts, h, truthy_vUndefined, show toString (1 : Nat) = "1" from rfl]
  · cases h : truthy ms <;>
      simp [jobWhereParts, h, truthy_vUndefined, show toString (1 : Nat) = "1" from rfl]
  · simp [jobWhereParts, hft, truthy_vUndefined]
  · simp [jobWhereParts, hfms, truthy_vUndefined]
  · simp [jobWhereParts, truthy_vNum_zero, truthy_vUndefined]
  · simp [jobWhereParts, hfe, truthy_vUndefined]
  · simp [jobWhereParts, hte, truthy_vUndefined]
  · simp [jobWhereParts, hte, truthy_vUndefined]

theorem findAll_truthy_filters_witness :
    companyWhereParts ⟨(JSValue.vStr "c"), .vUndefined, .vUndefined, .vUndefined⟩
      = (if truthy (JSValue.vStr "c") then (["name ILIKE $1"], [JSValue.vStr ("%" ++ jsToString (JSValue.vStr "c") ++ "%")])
         else ([], [])) ∧
    companyWhereParts ⟨.vUndefined, (JSValue.vNum 2), .vUndefined, .vUndefined⟩
      = (if truthy (JSValue.vNum 2) then (["num_employees >= $1"], [(JSValue.vNum 2)]) else ([], [])) ∧
    companyWhereParts ⟨.vUndefined, .vUndefined, (JSValue.vNum 3), .vUndefined⟩
      = (if truthy (JSValue.vNum 3) then (["num_employees <= $1"], [(JSValue.vNum 3)]) else ([], [])) ∧
    companyWhereParts ⟨.vUndefined, .vUndefined, .vUndefined, (JSValue.vStr "c1")⟩
      = (if truthy (JSValue.vStr "c1") then (["handle = $1"], [(JSValue.vStr "c1")]) else ([], [])) ∧
    companyWhereParts ⟨(JSValue.vStr ""), (JSValue.vNum 2), (JSValue.vNum 3), (JSValue.vStr "c1")⟩ = companyWhereParts ⟨.vUndefined, (JSValue.vNum 2), (JSValue.vNum 3), (JSValue.vStr "c1")⟩ ∧
    companyWhereParts ⟨(JSValue.vStr "c"), (JSValue.vNum 0), (JSValue.vNum 3), (JSValue.vStr "c1")⟩ = companyWhereParts ⟨(JSValue.vStr "c"), .vUndefined, (JSValue.vNum 3), (JSValue.vStr "c1")⟩ ∧
    companyWhereParts ⟨(JSValue.vStr "c"), (JSValue.vNum 2), (JSValue.vNum 0), (JSValue.vStr "c1")⟩ = companyWhereParts ⟨(JSValue.vStr "c"), (JSValue.vNum 2), .vUndefined, (JSValue.vStr "c1")⟩ ∧
    companyWhereParts ⟨(JSValue.vStr "c"), (JSValue.vNum 2), (JSValue.vNum 3), JSValue.vNull⟩ = companyWhereParts ⟨(JSValue.vStr "c"), (JSValue.vNum 2), (JSValue.vNum 3), .vUndefined⟩ ∧
    companyWhereParts ⟨(JSValue.vStr "c"), .vNum 0, (JSValue.vNum 3), (JSValue.vStr "c1")⟩ = companyWhereParts ⟨(JSValue.vStr "c"), .vUndefined, (JSValue.vNum 3), (JSValue.vStr "c1")⟩ ∧
    companyWhereParts ⟨(JSValue.vStr "c"), (JSValue.vNum 2), .vNum 0, (JSValue.vStr "c1")⟩ = companyWhereParts ⟨(JSValue.vStr "c"), (JSValue.vNum 2), .vUndefined, (JSValue.vStr "c1")⟩ ∧
    companyWhereParts ⟨.vStr "", (JSValue.vNum 2), (JSValue.vNum 3), (JSValue.vStr "c1")⟩ = companyWhereParts ⟨.vUndefined, (JSValue.vNum 2), (JSValue.vNum 3), (JSValue.vStr "c1")⟩ ∧
    jobWhereParts ⟨(JSValue.vStr "j"), .vUndefined, .vUndefined⟩
      = (if truthy (JSValue.vStr "j") then (["title ILIKE $1"], [JSValue.vStr ("%" ++ jsToString (JSValue.vStr "j") ++ "%")])
         else ([], [])) ∧
    jobWhereParts ⟨.vUndefined, (JSValue.vNum 5), .vUndefined⟩
      = (if truthy (JSValue.vNum 5) then (["salary >= $1"], [(JSValue.vNum 5)]) else ([], [])) ∧
    jobWhereParts ⟨(JSValue.vStr ""), (JSValue.vNum 5), (JSValue.vBool false)⟩ = jobWhereParts ⟨.vUndefined, (JSValue.vNum 5), (JSValue.vBool false)⟩ ∧
    jobWhereParts ⟨(JSValue.vStr "j"), (JSValue.vNum 0), (JSValue.vBool false)⟩ = jobWhereParts ⟨(JSValue.vStr "j"), .vUndefined, (JSValue.vBool false)⟩ ∧
    jobWhereParts ⟨(JSValue.vStr "j"), .vNum 0, (JSValue.vBool false)⟩ = jobWhereParts ⟨(JSValue.vStr "j"), .vUndefined, (JSValue.vBool false)⟩ ∧
    jobWhereParts ⟨(JSValue.vStr "j"), (JSValue.vNum 5), JSValue.vNull⟩ = jobWhereParts ⟨(JSValue.vStr "j"), (JSValue.vNum 5), .vUndefined⟩ ∧
    (jobWhereParts ⟨(JSValue.vStr "j"), (JSValue.vNum 5), (JSValue.vBool true)⟩).1 = (jobWhereParts ⟨(JSValue.vStr "j"), (JSValue.vNum 5), .vUndefined⟩).1 ++ ["equity > 0"] ∧
    (jobWhereParts ⟨(JSValue.vStr "j"), (JSValue.vNum 5), (JSValue.vBool true)⟩).2 = (jobWhereParts ⟨(JSValue.vStr "j"), (JSValue.vNum 5), .vUndefined⟩).2 :=
  findAll_truthy_filters (JSValue.vStr "c") (JSValue.vNum 2) (JSValue.vNum 3)
    (JSValue.vStr "c1") (JSValue.vStr "j") (JSValue.vNum 5) (JSValue.vBool false)
    (JSValue.vStr "") (JSValue.vNum 0) (JSValue.vNum 0) JSValue.vNull
    (JSValue.vStr "") (JSValue.vNum 0) JSValue.vNull (JSValue.vBool true)
    rfl (by decide) (by decide) rfl rfl (by decide) rfl rfl

/-- Claim C10: the object returned by `Company.get` keeps the snake_case
storage names `num_employees` and `logo_url` as keys, while the statements
of `Company.create` and `Company.update` alias those columns to the
camelCase names `numEmployees` / `logoUrl` in their `RETURNING` clauses;
and its `jobs` array holds exactly the joined rows with a non-null job
`id`, so a company whose join rows all have a null `id` gets `jobs = []`. -/
theorem companyGet_snake_case_keys (h h2 key : JSValue)
    (company company2 : CompanyJoinRow) (rest rest2 : List CompanyJoinRow)
    (data : List (String × JSValue)) (r : ClauseResult)
    (hcall : sqlForPartialUpdate data companyFieldMap = .ok r)
    (hall : ∀ row ∈ company2 :: rest2, row.id = JSValue.vNull) :
    (∃ obj, companyGet h (company :: rest) = .ok obj ∧
      obj.map Prod.fst
        = ["handle", "name", "description", "num_employees", "logo_url", "jobs"] ∧
      obj.lookup "jobs" = some (.jobs
        (((company :: rest).filter (fun row => row.id != JSValue.vNull)).map
          (fun row => { id := row.id, title := row.title, salary := row.salary,
                        equity := row.equity })))) ∧
    (∃ obj, companyGet h2 (company2 :: rest2) = .ok obj ∧
      obj.lookup "jobs" = some (.jobs [])) ∧
    (∃ pre, companyCreateQuerySql
      = pre ++ "num_employees AS \"numEmployees\", logo_url AS \"logoUrl\"") ∧
    (∃ q pre, companyUpdateQuery key data = .ok q ∧
      q.querySql
        = pre ++ "num_employees AS \"numEmployees\", \n                                logo_url AS \"logoUrl\"") := by
  refine ⟨⟨_, rfl, rfl, rfl⟩, ⟨_, rfl, ?_⟩,
    ⟨"INSERT INTO companies\n           (handle, name, description, num_employees, logo_url)\n           VALUES ($1, $2, $3, $4, $5)\n           RETURNING handle, name, description, ",
      rfl⟩, ?_⟩
  · have hfil : (company2 :: rest2).filter (fun row => row.id != JSValue.vNull) = [] := by
      rw [List.filter_eq_nil_iff]
      intro a ha
      simp [hall a ha]
    simp [List.lookup, hfil]
  · unfold companyUpdateQuery
    rw [hcall]
    refine ⟨_, "UPDATE companies \n                      SET " ++ r.setCols ++
      " \n                      WHERE handle = " ++ ("$" ++ toString (r.values.length + 1)) ++
      " \n                      RETURNING handle, \n                                name, \n                                description, \n                                ",
      rfl, ?_⟩
    simp [String.append_assoc]

theorem companyGet_snake_case_keys_witness :
    (∃ obj, companyGet (JSValue.vStr "c1")
        ([⟨JSValue.vStr "c1", JSValue.vStr "C1", JSValue.vStr "Desc1", JSValue.vNum 1,
        JSValue.vStr "img1", JSValue.vNum 7, JSValue.vStr "Job1", JSValue.vNum 10000,
        JSValue.vStr "0.1"⟩] : List CompanyJoinRow) = .ok obj ∧
      obj.map Prod.fst
        = ["handle", "name", "description", "num_employees", "logo_url", "jobs"] ∧
      obj.lookup "jobs" = some (.jobs
        ((([⟨JSValue.vStr "c1", JSValue.vStr "C1", JSValue.vStr "Desc1", JSValue.vNum 1,
        JSValue.vStr "img1", JSValue.vNum 7, JSValue.vStr "Job1", JSValue.vNum 10000,
        JSValue.vStr "0.1"⟩] : List CompanyJoinRow).filter
            (fun row => row.id != JSValue.vNull)).map
          (fun row => { id := row.id, title := row.title, salary := row.salary,
                        equity := row.equity })))) ∧
    (∃ obj, companyGet (JSValue.vStr "c2")
        ([⟨JSValue.vStr "c2", JSValue.vStr "C2", JSValue.vStr "Desc2", JSValue.vNum 2,
        JSValue.vStr "img2", JSValue.vNull, JSValue.vNull, JSValue.vNull,
        JSValue.vNull⟩] : List CompanyJoinRow) = .ok obj ∧
      obj.lookup "jobs" = some (.jobs [])) ∧
    (∃ pre, companyCreateQuerySql
      = pre ++ "num_employees AS \"numEmployees\", logo_url AS \"logoUrl\"") ∧
    (∃ q pre, companyUpdateQuery (JSValue.vStr "c1") [("numEmployees", JSValue.vNum 10)] = .ok q ∧
      q.querySql
        = pre ++ "num_employees AS \"numEmployees\", \n                                logo_url AS \"logoUrl\"") :=
  companyGet_snake_case_keys (JSValue.vStr "c1") (JSValue.vStr "c2") (JSValue.vStr "c1")
    ⟨JSValue.vStr "c1", JSValue.vStr "C1", JSValue.vStr "Desc1", JSValue.vNum 1,
        JSValue.vStr "img1", JSValue.vNum 7, JSValue.vStr "Job1", JSValue.vNum 10000,
        JSValue.vStr "0.1"⟩
    ⟨JSValue.vStr "c2", JSValue.vStr "C2", JSValue.vStr "Desc2", JSValue.vNum 2,
        JSValue.vStr "img2", JSValue.vNull, JSValue.vNull, JSValue.vNull,
        JSValue.vNull⟩
    [] [] [("numEmployees", JSValue.vNum 10)]
    { setCols := "\"num_employees\"=$1", values := [JSValue.vNum 10] }
    rfl (by decide)

end Jobly
